import Mathlib

/-!
Shallow embedding of `altmod/automodel_optimal_restraints.py`
(class `Automodel_optimal_restraints`).

Conventions used throughout:
* Python exceptions are modelled by `Except AnalysisError`; a `continue`
  statement inside the restraint loop is modelled by `.ok none` (the
  restraint is skipped, no row is produced).
* Python `float` arithmetic is modelled over `ℚ` (for the sequence-identity
  fraction, where only comparisons matter) and over `ℝ` (for atomic
  distances, which involve a square root).
* Python dictionaries are modelled by association lists looked up with
  `List.lookup`; the keys produced by the code are pairwise distinct, so
  first-match lookup agrees with Python's last-write-wins semantics.
* The helper functions `get_modeller_atom` and `get_modeller_dist` are
  imported by the analysed module from `altmod_utils`, whose source is not
  part of this development; they are modelled from the specification text.
-/

/-- An atom of a structure: a type label (e.g. "CA") and 3D coordinates.
Mirrors the MODELLER atom objects consumed by the analysed code. -/
structure Atom where
  atm_type : String
  x : ℝ
  y : ℝ
  z : ℝ

/-- A residue: MODELLER internal index (`.index`), PDB identifier (`.num`),
one-letter code (`.code`) and its atoms. -/
structure Residue where
  index : Int
  num : String
  code : Char
  atoms : List Atom

/-- The parsed target structure (`complete_pdb` result): its chains, keyed
by chain identifier, and the residue list of the whole object. -/
structure TarStructure where
  chains : List (String × List Residue)
  residues : List Residue

/-- Per-sequence data of the PIR alignment used by `_get_template_filepaths`:
the sequence code and the structure-file name recorded in the alignment. -/
structure SeqMeta where
  code : String
  atom_file : String

/-- The file-system facts consulted by `_get_template_filepaths`:
`os.path.isfile`, `env.io.atom_files_directory` and `os.listdir`. -/
structure FileSystem where
  isfile : String → Bool
  atom_files_directory : List String
  listdir : String → List String

/-- Error kinds raised by the analysed code.  In the Python source all of
`multiChainNoChain` and `seqIdentityBelowThreshold` are `ValueError`
(the specification groups them as `DataIncompatibilityError`),
`templateNotFound` is `IOError` (spec: `NotFoundError`),
`usageError` is the `ValueError` raised by `homcsr` (spec: `UsageError`),
and `zeroDivisionError`, `keyError`, `indexError` are the unguarded
`ZeroDivisionError` / `KeyError` / `IndexError` of the interpreter. -/
inductive AnalysisError where
  | notImplementedMultiChainModel (msg : String)
  | multiChainNoChain (msg : String)
  | seqIdentityBelowThreshold (msg : String)
  | zeroDivisionError
  | keyError (msg : String)
  | indexError (msg : String)
  | templateNotFound (msg : String)
  | usageError (msg : String)
deriving DecidableEq

/-- Counts `(identities_count, matches_count)` over the zipped aligned
sequences, mirroring the loop at lines 170-176 of the source: a column
counts as a match when neither side is the gap character, and as an
identity when additionally the two residue codes coincide. -/
def seqIdCounts : List (Char × Char) → Nat × Nat
  | [] => (0, 0)
  | (mod_p, tar_p) :: rest =>
    let (identities_count, matches_count) := seqIdCounts rest
    if mod_p ≠ '-' ∧ tar_p ≠ '-' then
      (if mod_p = tar_p then identities_count + 1 else identities_count, matches_count + 1)
    else
      (identities_count, matches_count)

/-- The sequence-identity check of lines 169-182: computes
`identities_count / matches_count` and raises (`ValueError` in Python,
here `seqIdentityBelowThreshold`) when the fraction is strictly below the
threshold.  The division is unguarded in the source: `matches_count = 0`
raises `ZeroDivisionError`. -/
def checkSeqIdentity (mod_aliseq tar_aliseq : String) (threshold : ℚ) :
    Except AnalysisError ℚ :=
  let counts := seqIdCounts (mod_aliseq.toList.zip tar_aliseq.toList)
  if counts.2 = 0 then
    .error .zeroDivisionError
  else
    let mod_tar_seqid : ℚ := (counts.1 : ℚ) / (counts.2 : ℚ)
    if mod_tar_seqid < threshold then
      .error (.seqIdentityBelowThreshold
        ("The target and model sequence do not correspond:\n* Tar: " ++ tar_aliseq
          ++ "\n* Mod: " ++ mod_aliseq))
    else
      .ok mod_tar_seqid

/-- The model/target residue-correspondence loop of lines 184-194, with the
two running counters `mod_c` and `tar_c` made explicit arguments. -/
def buildModTarResDict : List (Char × Char) → Nat → Nat → List (Nat × Nat)
  | [], _, _ => []
  | (mod_pos, tar_pos) :: rest, mod_c, tar_c =>
    (if mod_pos ≠ '-' ∧ tar_pos ≠ '-' then [(mod_c, tar_c)] else [])
      ++ buildModTarResDict rest
          (if mod_pos ≠ '-' then mod_c + 1 else mod_c)
          (if tar_pos ≠ '-' then tar_c + 1 else tar_c)

/-- The dictionary `mod_tar_res_dict` built by the source from the two
aligned sequence strings. -/
def mod_tar_res_dict (mod_aliseq tar_aliseq : String) : List (Nat × Nat) :=
  buildModTarResDict (mod_aliseq.toList.zip tar_aliseq.toList) 0 0

/-- The set `main_chain_atoms` of line 384 of the source. -/
def main_chain_atoms : List String := ["CA", "N", "C", "O", "OXT"]

/-- The restraint-category classification of lines 279-288, extracted from
the loop body as a function of the two atom type labels. -/
def assign_grp_name (atm_1_type atm_2_type : String) : String :=
  if atm_1_type = "CA" ∧ atm_2_type = "CA" then "9"
  else if (atm_1_type = "N" ∧ atm_2_type = "O") ∨ (atm_1_type = "O" ∧ atm_2_type = "N") then "10"
  else if atm_1_type ∈ main_chain_atoms ∨ atm_2_type ∈ main_chain_atoms then "23"
  else "26"

/-- Modelled from the spec: `get_modeller_atom` is imported from
`altmod_utils` (not part of the available sources).  Per the specification
it resolves "the actual atom (by type label, e.g. CA)" in a residue and
yields nothing when "either structure lacks the required atom type at that
residue". -/
def get_modeller_atom (res : Residue) (atm_type : String) : Option Atom :=
  res.atoms.find? (fun a => a.atm_type == atm_type)

/-- Modelled from the spec: `get_modeller_dist` is imported from
`altmod_utils` (not part of the available sources).  Per the specification
it is "the three-dimensional Euclidean distance between the two atoms". -/
noncomputable def get_modeller_dist (a b : Atom) : ℝ :=
  Real.sqrt ((a.x - b.x) ^ 2 + (a.y - b.y) ^ 2 + (a.z - b.z) ^ 2)

/-- One entry of `matches_dict` (lines 214-226): the model residue, the
template residue aligned with it, and the 0-based position `_id` assigned
to the model residue by the running counter `mod_c`. -/
structure MatchEntry where
  mod_res : Residue
  tem_res : Residue
  mod_id : Nat

/-- Builds `matches_dict` from the model/template alignment columns
(lines 214-226).  Each column carries the model residue (if not a gap) and
the template residue (if not a gap); a column where both are present adds
an entry keyed by the model residue's MODELLER index.  The counter
`mod_c` counts the non-gap model positions seen so far, so the `mod_id`
stored with an entry is the 0-based position of the model residue. -/
def build_matches_dict : List (Option Residue × Option Residue) → Nat → List (Int × MatchEntry)
  | [], _ => []
  | (mod_pos, tem_pos) :: rest, mod_c =>
    match mod_pos, tem_pos with
    | some mr, some tr => (mr.index, ⟨mr, tr, mod_c⟩) :: build_matches_dict rest (mod_c + 1)
    | some _, none => build_matches_dict rest (mod_c + 1)
    | none, _ => build_matches_dict rest mod_c

/-- The per-template data consulted by one iteration of the restraint loop
(lines 234-315): `matches_dict`, `mod_tar_res_dict`, the target residues,
and the `atm_type_dict` / `atm_to_res_dict` dictionaries inherited from
the parent class (their construction is not part of this module). -/
structure TemplateContext where
  matches_dict : List (Int × MatchEntry)
  mod_tar_res_dict : List (Nat × Nat)
  tar_residues : List Residue
  atm_type_dict : Nat → Option String
  atm_to_res_dict : Nat → Option Int

/-- One row of the analysis output table (the `pair_results` dictionary of
lines 296-312). -/
structure PairResults where
  RST_GRP : String
  GRP_DN : ℝ
  GRP_DT : ℝ
  GRP_DD : ℝ
  MOD_ATOM_TYPE_I : String
  MOD_ATOM_TYPE_J : String
  MOD_ATOM_INDEX_I : Nat
  MOD_ATOM_INDEX_J : Nat
  MOD_RES_PDB_ID_I : Int
  MOD_RES_PDB_ID_J : Int
  MOD_RES_NAME_I : Char
  MOD_RES_NAME_J : Char
  TAR_RES_PDB_ID_I : String
  TAR_RES_PDB_ID_J : String
  TAR_RES_NAME_I : Char
  TAR_RES_NAME_J : Char
  TEM_RES_PDB_ID_I : String
  TEM_RES_PDB_ID_J : String
  TEM_RES_NAME_I : Char
  TEM_RES_NAME_J : Char

/-- The body of the restraint loop (lines 235-315) for one restrained atom
pair `(atm_1, atm_2)`.  Returns `.ok (some row)` when a row is appended to
`results_list`, `.ok none` for each `continue` (alignment gap on the
template or target side, or a missing atom type), and `.error` for the
exceptions the source does not catch: the `atm_type_dict` lookups of
lines 238-239 sit outside the `try` block, and the target residue-list
indexing of lines 255-256 can raise `IndexError`.  The `try/except
KeyError` of lines 242-246 covers both the `atm_to_res_dict` and the
`matches_dict` lookups, hence the composed `Option.bind`. -/
noncomputable def processRestraint (ctx : TemplateContext) (atm_1 atm_2 : Nat) :
    Except AnalysisError (Option PairResults) :=
  match ctx.atm_type_dict atm_1, ctx.atm_type_dict atm_2 with
  | some atm_1_type, some atm_2_type =>
    match (ctx.atm_to_res_dict atm_1).bind (fun ri => ctx.matches_dict.lookup ri),
          (ctx.atm_to_res_dict atm_2).bind (fun ri => ctx.matches_dict.lookup ri) with
    | some m1, some m2 =>
      match ctx.mod_tar_res_dict.lookup m1.mod_id, ctx.mod_tar_res_dict.lookup m2.mod_id with
      | some ti1, some ti2 =>
        match ctx.tar_residues.get? ti1, ctx.tar_residues.get? ti2 with
        | some tar_res_1, some tar_res_2 =>
          let tem_atm_1 := get_modeller_atom m1.tem_res atm_1_type
          let tem_atm_2 := get_modeller_atom m2.tem_res atm_2_type
          let tar_atm_1 := get_modeller_atom tar_res_1 atm_1_type
          let tar_atm_2 := get_modeller_atom tar_res_2 atm_2_type
          match tem_atm_1, tem_atm_2 with
          | some ta1, some ta2 =>
            let grp_dt := get_modeller_dist ta1 ta2
            match tar_atm_1, tar_atm_2 with
            | some na1, some na2 =>
              let grp_dn := get_modeller_dist na1 na2
              let grp_name := assign_grp_name atm_1_type atm_2_type
              let grp_dd := grp_dn - grp_dt
              .ok (some
                { RST_GRP := grp_name
                  GRP_DN := grp_dn
                  GRP_DT := grp_dt
                  GRP_DD := grp_dd
                  MOD_ATOM_TYPE_I := atm_1_type
                  MOD_ATOM_TYPE_J := atm_2_type
                  MOD_ATOM_INDEX_I := atm_1
                  MOD_ATOM_INDEX_J := atm_2
                  MOD_RES_PDB_ID_I := m1.mod_res.index
                  MOD_RES_PDB_ID_J := m2.mod_res.index
                  MOD_RES_NAME_I := m1.mod_res.code
                  MOD_RES_NAME_J := m2.mod_res.code
                  TAR_RES_PDB_ID_I := tar_res_1.num
                  TAR_RES_PDB_ID_J := tar_res_2.num
                  TAR_RES_NAME_I := tar_res_1.code
                  TAR_RES_NAME_J := tar_res_2.code
                  TEM_RES_PDB_ID_I := m1.tem_res.num
                  TEM_RES_PDB_ID_J := m2.tem_res.num
                  TEM_RES_NAME_I := m1.tem_res.code
                  TEM_RES_NAME_J := m2.tem_res.code })
            | _, _ => .ok none
          | _, _ => .ok none
        | _, _ => .error (.indexError "target residue index out of range")
      | _, _ => .ok none
    | _, _ => .ok none
  | _, _ => .error (.keyError "atm_type_dict")

/-- Runs the restraint loop over `self.hddr_dict` (line 235) and collects
the rows appended to `results_list`, in order. -/
noncomputable def collect_results (ctx : TemplateContext) :
    List (Nat × Nat) → Except AnalysisError (List PairResults)
  | [] => .ok []
  | (atm_1, atm_2) :: rest =>
    match processRestraint ctx atm_1 atm_2 with
    | .error e => .error e
    | .ok row? =>
      match collect_results ctx rest with
      | .error e => .error e
      | .ok rows =>
        match row? with
        | some row => .ok (row :: rows)
        | none => .ok rows

/-- Joining of a directory path and a file name, modelling the
`os.path.join(atom_dirpath, tem_seq_obj_code)` call of line 364 for a
relative file name. -/
def path_join (d f : String) : String := d ++ "/" ++ f

/-- The last path component, modelling `os.path.basename` (line 361). -/
def basename (p : String) : String := (p.splitOn "/").getLastD ""

/-- The four candidate file names tried, in order, inside one atom
directory (lines 359-362). -/
def template_dir_candidates (tem : SeqMeta) : List String :=
  [tem.code, tem.code ++ ".pdb", basename tem.atom_file, basename tem.atom_file ++ ".pdb"]

/-- The file paths appended for one template by `_get_template_filepaths`
(lines 349-366): the literal `atom_file` path when it exists as a file;
otherwise, for every atom directory whose listing contains one of the four
candidates, the joined path of the first such candidate.  Note that the
`break` of line 366 only leaves the candidate loop, so a template found in
several directories contributes one path per directory. -/
def template_candidates (fs : FileSystem) (tem : SeqMeta) : List String :=
  if fs.isfile tem.atom_file then
    [tem.atom_file]
  else
    (fs.atom_files_directory.zip (fs.atom_files_directory.map fs.listdir)).filterMap
      (fun dc =>
        ((template_dir_candidates tem).find? (fun c => dc.2.contains c)).map
          (fun c => path_join dc.1 c))

/-- The sequence loop of `_get_template_filepaths` (lines 348-370) with the
explicit counter `tem_idx`.  Each alignment sequence contributes its
candidate paths; an `IOError` is raised when a sequence yields none; the
loop stops after the sequence with `tem_idx + 1 = knowns_len` (so with an
empty `knowns` list the loop runs over the whole alignment). -/
def get_template_filepaths_loop (fs : FileSystem) (knowns_len : Nat) :
    List SeqMeta → Nat → Except AnalysisError (List String)
  | [], _ => .ok []
  | tem :: rest, tem_idx =>
    let found := template_candidates fs tem
    if found.isEmpty then
      .error (.templateNotFound ("Structure file not found for template " ++ tem.code ++ "."))
    else if tem_idx + 1 = knowns_len then
      .ok found
    else
      match get_template_filepaths_loop fs knowns_len rest (tem_idx + 1) with
      | .error e => .error e
      | .ok more => .ok (found ++ more)

/-- The method `_get_template_filepaths` (lines 337-371): scans the
alignment sequences against the configured atom directories. -/
def get_template_filepaths (fs : FileSystem) (aln_seqs : List SeqMeta) (knowns_len : Nat) :
    Except AnalysisError (List String) :=
  get_template_filepaths_loop fs knowns_len aln_seqs 0

/-- The alignment sequences actually processed by the loop of
`_get_template_filepaths`: the first `knowns_len` ones, or all of them
when `knowns` is empty (the loop's stop test `tem_idx + 1 == len(knowns)`
never fires then). -/
def processedSeqs (seqs : List SeqMeta) (knowns_len : Nat) : List SeqMeta :=
  if knowns_len = 0 then seqs else seqs.take knowns_len

/-- Target-structure resolution (lines 148-153): when the parsed target
structure has more than one chain, a missing chain designation raises a
`ValueError` (spec: `DataIncompatibilityError`); otherwise the object is
replaced by the designated chain, whose residues are used from then on.
A designation naming a chain absent from the structure is a fatal lookup
error. -/
def resolve_target (tar_obj : TarStructure) (target_chain : Option String) :
    Except AnalysisError (List Residue) :=
  if tar_obj.chains.length > 1 then
    match target_chain with
    | none =>
      .error (.multiChainNoChain
        ("The selected target structure has more than chain ("
          ++ toString tar_obj.chains.length
          ++ "). In order to extract optimal restraints, provide to the set_target_structure the chain corresponding to the model."))
    | some c =>
      match tar_obj.chains.lookup c with
      | some chain_residues => .ok chain_residues
      | none => .error (.keyError "target chain not found")
  else
    .ok tar_obj.residues

/-- Alignment data for one template of `self.knowns`: its name and the
alignment columns, each holding the model residue and the template residue
at that column (`None` encoding a gap), in the order of
`aln.positions` (lines 217-226). -/
structure TemplateInput where
  name : String
  cols : List (Option Residue × Option Residue)

/-- One written analysis output table: its file name and its rows. -/
structure AnalysisTable where
  filename : String
  rows : List PairResults

/-- The result of a successful `analyse_target_template_pairs` run: the
tables written (one per template, in template order) and the final value
of `self.hddr_params_filepaths`. -/
structure AnalysisOutput where
  tables : List AnalysisTable
  hddr_params_filepaths : List (Option String)

/-- The inputs of `analyse_target_template_pairs`: the state of the
`Automodel_optimal_restraints` instance together with the data returned by
the external collaborators (alignment reading, PDB parsing, `salign`).
`salign` maps the `(tar_seq, mod_seq)` pair to the aligned strings
`(tar_aliseq, mod_aliseq)` read off `new_aln` (lines 156-161);
`hddr_all` is `self.hddr_dict["all"]`, and `hddr_params_filepaths` is
the list initialized by `set_custom_hddr_options`. -/
structure AnalyseInput where
  mod_chains_count : Nat
  mod_residues : List Residue
  tar_obj : TarStructure
  target_chain : Option String
  mod_tar_seqid_threshold : ℚ
  salign : String → String → String × String
  sequence : String
  fs : FileSystem
  aln_seqs : List SeqMeta
  knowns : List TemplateInput
  hddr_all : List (Nat × Nat)
  atm_type_dict : Nat → Option String
  atm_to_res_dict : Nat → Option Int
  hddr_params_filepaths : List (Option String)

/-- The restraint-loop context assembled for one template (lines 208-226
and 235-256). -/
def template_ctx (input : AnalyseInput) (tar_residues : List Residue)
    (mtd : List (Nat × Nat)) (k : TemplateInput) : TemplateContext :=
  ⟨build_matches_dict k.cols 0, mtd, tar_residues, input.atm_type_dict, input.atm_to_res_dict⟩

/-- The per-template loop of `analyse_target_template_pairs`
(lines 203-334): for each template, builds `matches_dict`, runs the
restraint loop, writes the table named
`"<sequence>_tar_tem_<tem_idx>.csv"` and records that file name in
`hddr_params_filepaths` at position `tem_idx` (line 334; `List.set` is a
no-op out of range, while Python would raise, so theorems about this
function assume the list is long enough, as guaranteed by
`set_custom_hddr_options`). -/
noncomputable def analyse_templates (input : AnalyseInput) (tar_residues : List Residue)
    (mtd : List (Nat × Nat)) :
    Nat → List TemplateInput → List (Option String) →
      Except AnalysisError (List AnalysisTable × List (Option String))
  | _, [], fps => .ok ([], fps)
  | tem_idx, k :: ks, fps =>
    match collect_results (template_ctx input tar_residues mtd k) input.hddr_all with
    | .error e => .error e
    | .ok results_list =>
      let analysis_filename := input.sequence ++ "_tar_tem_" ++ toString tem_idx ++ ".csv"
      let fps2 := fps.set tem_idx (some analysis_filename)
      match analyse_templates input tar_residues mtd (tem_idx + 1) ks fps2 with
      | .error e => .error e
      | .ok (tables, fps3) => .ok (⟨analysis_filename, results_list⟩ :: tables, fps3)

/-- The part of `analyse_target_template_pairs` after the target residues
have been resolved (lines 153-334): sequence extraction, the dedicated
pairwise alignment (`salign`, external), the identity check, the residue
correspondence, the template file search, and the per-template loop. -/
noncomputable def analyse_with_target (input : AnalyseInput) (tar_residues : List Residue) :
    Except AnalysisError AnalysisOutput :=
  let mod_seq := String.mk (input.mod_residues.map (fun r => r.code))
  let tar_seq := String.mk (tar_residues.map (fun r => r.code))
  let new_aln := input.salign tar_seq mod_seq
  let tar_aliseq := new_aln.1
  let mod_aliseq := new_aln.2
  match checkSeqIdentity mod_aliseq tar_aliseq input.mod_tar_seqid_threshold with
  | .error e => .error e
  | .ok _ =>
    let mtd := mod_tar_res_dict mod_aliseq tar_aliseq
    match get_template_filepaths input.fs input.aln_seqs input.knowns.length with
    | .error e => .error e
    | .ok _ =>
      match analyse_templates input tar_residues mtd 0 input.knowns
          input.hddr_params_filepaths with
      | .error e => .error e
      | .ok (tables, fps) => .ok ⟨tables, fps⟩

/-- The method `analyse_target_template_pairs` (lines 126-334), as a
function from the instance state and collaborator data to either an error
or the written tables plus the updated `hddr_params_filepaths`. -/
noncomputable def analyse_target_template_pairs (input : AnalyseInput) :
    Except AnalysisError AnalysisOutput :=
  if input.mod_chains_count > 1 then
    .error (.notImplementedMultiChainModel
      "Optimal restraints with multiple chain models are currently not implemented in altMOD.")
  else
    match resolve_target input.tar_obj input.target_chain with
    | .error e => .error e
    | .ok tar_residues => analyse_with_target input tar_residues

/-- The build stages invoked by `homcsr` (lines 74-98); the stage bodies
live in the parent class `Automodel_custom_restraints`, whose source is
not part of this module, so they are treated as opaque actions. -/
inductive Stage where
  | build_initial_files
  | set_custom_hddr_options
  | analyse_target_template_pairs
  | rebuild_restraints_file
deriving DecidableEq

/-- The instance state relevant to `homcsr`: whether `set_target_structure`
was called (Python: `hasattr(self, "target_filepath")`) and whether custom
HDDR options were already configured (`self._has_custom_hddr_options`). -/
structure HomcsrState where
  target_set : Bool
  has_custom_hddr_options : Bool

/-- The method `homcsr` (lines 74-98) as a trace of the stages it runs:
without a target it raises a `ValueError` (spec: `UsageError`) before any
stage; with a target it runs the four stages in order, the defaults stage
only when no custom options were configured yet. -/
def homcsr (s : HomcsrState) : Except AnalysisError (List Stage) :=
  if !s.target_set then
    .error (.usageError "Please define a target filepath using the set_target_structure method.")
  else
    .ok ([Stage.build_initial_files]
      ++ (if !s.has_custom_hddr_options then [Stage.set_custom_hddr_options] else [])
      ++ [Stage.analyse_target_template_pairs, Stage.rebuild_restraints_file])

/-! Concrete example data used to exercise the definitions. -/

/-- A Cα atom at the origin. -/
noncomputable def wAtomA : Atom := ⟨"CA", 0, 0, 0⟩

/-- A Cα atom at distance 5 from the origin. -/
noncomputable def wAtomB : Atom := ⟨"CA", 3, 4, 0⟩

/-- A Cα atom at distance 1 from the origin. -/
noncomputable def wAtomC : Atom := ⟨"CA", 1, 0, 0⟩

/-- Example model residue 1 (atoms of the model are never consulted). -/
noncomputable def wModRes1 : Residue := ⟨1, "1", 'A', []⟩

/-- Example model residue 2. -/
noncomputable def wModRes2 : Residue := ⟨2, "2", 'R', []⟩

/-- Example template residue aligned with model residue 1. -/
noncomputable def wTemRes1 : Residue := ⟨1, "1", 'A', [wAtomA]⟩

/-- Example template residue aligned with model residue 2. -/
noncomputable def wTemRes2 : Residue := ⟨2, "2", 'R', [wAtomB]⟩

/-- Example target residue matched with model residue 1. -/
noncomputable def wTarRes1 : Residue := ⟨1, "1", 'A', [wAtomA]⟩

/-- Example target residue matched with model residue 2. -/
noncomputable def wTarRes2 : Residue := ⟨2, "2", 'R', [wAtomC]⟩

/-- Example restraint-loop context: atoms 1 and 2 are Cα atoms of model
residues 1 and 2, both with template and target equivalents; atom 3 has
type CB, which is absent from every residue. -/
noncomputable def wCtx : TemplateContext where
  matches_dict := [(1, ⟨wModRes1, wTemRes1, 0⟩), (2, ⟨wModRes2, wTemRes2, 1⟩)]
  mod_tar_res_dict := [(0, 0), (1, 1)]
  tar_residues := [wTarRes1, wTarRes2]
  atm_type_dict := fun n =>
    if n = 1 then some "CA" else if n = 2 then some "CA" else if n = 3 then some "CB" else none
  atm_to_res_dict := fun n =>
    if n = 1 then some 1 else if n = 2 then some 2 else if n = 3 then some 1 else none

/-- The row produced by `processRestraint wCtx 1 2`. -/
noncomputable def wRow : PairResults where
  RST_GRP := "9"
  GRP_DN := get_modeller_dist wAtomA wAtomC
  GRP_DT := get_modeller_dist wAtomA wAtomB
  GRP_DD := get_modeller_dist wAtomA wAtomC - get_modeller_dist wAtomA wAtomB
  MOD_ATOM_TYPE_I := "CA"
  MOD_ATOM_TYPE_J := "CA"
  MOD_ATOM_INDEX_I := 1
  MOD_ATOM_INDEX_J := 2
  MOD_RES_PDB_ID_I := 1
  MOD_RES_PDB_ID_J := 2
  MOD_RES_NAME_I := 'A'
  MOD_RES_NAME_J := 'R'
  TAR_RES_PDB_ID_I := "1"
  TAR_RES_PDB_ID_J := "2"
  TAR_RES_NAME_I := 'A'
  TAR_RES_NAME_J := 'R'
  TEM_RES_PDB_ID_I := "1"
  TEM_RES_PDB_ID_J := "2"
  TEM_RES_NAME_I := 'A'
  TEM_RES_NAME_J := 'R'

/-- File-system example for the template search: no literal path exists,
and both atom directories list a file named `t1`. -/
def cFs6 : FileSystem := ⟨fun _ => false, ["d1", "d2"], fun _ => ["t1"]⟩

/-- Alignment-sequence example for the template search: one template with
code `t1`. -/
def cSeqs6 : List SeqMeta := [⟨"t1", "somewhere/t1file"⟩]

/-- Analyser input example: a two-chain target structure with no chain
designation. -/
noncomputable def cInput7 : AnalyseInput where
  mod_chains_count := 1
  mod_residues := []
  tar_obj := ⟨[("A", []), ("B", [])], []⟩
  target_chain := none
  mod_tar_seqid_threshold := 99 / 100
  salign := fun t m => (t, m)
  sequence := "model"
  fs := ⟨fun _ => true, [], fun _ => []⟩
  aln_seqs := []
  knowns := []
  hddr_all := []
  atm_type_dict := fun _ => none
  atm_to_res_dict := fun _ => none
  hddr_params_filepaths := []

/-- A one-residue target/model sequence used by the successful example
analysis run. -/
noncomputable def cRes9 : Residue := ⟨1, "1", 'A', []⟩

/-- Analyser input example for a successful run: identical one-residue
model and target sequences, one template with an existing structure file
and no restraints. -/
noncomputable def cInput9 : AnalyseInput where
  mod_chains_count := 1
  mod_residues := [cRes9]
  tar_obj := ⟨[], [cRes9]⟩
  target_chain := none
  mod_tar_seqid_threshold := 99 / 100
  salign := fun t m => (t, m)
  sequence := "model"
  fs := ⟨fun _ => true, [], fun _ => []⟩
  aln_seqs := [⟨"tem1", "tem1.pdb"⟩]
  knowns := [⟨"tem1", []⟩]
  hddr_all := []
  atm_type_dict := fun _ => none
  atm_to_res_dict := fun _ => none
  hddr_params_filepaths := [none]

/-! Theorems. -/

/-- The two counters of the identity loop count, respectively, the columns
where both sides are non-gap and the codes coincide, and the columns where
both sides are non-gap. -/
theorem seqIdCounts_eq_countP (l : List (Char × Char)) :
    seqIdCounts l =
      (l.countP (fun p => p.1 != '-' && p.2 != '-' && p.1 == p.2),
       l.countP (fun p => p.1 != '-' && p.2 != '-')) := by
  induction l with
  | nil => rfl
  | cons p rest ih =>
    obtain ⟨m, t⟩ := p
    simp only [seqIdCounts, ih, List.countP_cons]
    by_cases h1 : m ≠ '-' ∧ t ≠ '-'
    · by_cases h2 : m = t <;>
        simp [h1.1, h1.2, h2, Prod.ext_iff]
    · push_neg at h1
      by_cases hm : m = '-' <;> simp_all [Prod.ext_iff]

/-- Unfolding lemma for `checkSeqIdentity`. -/
theorem checkSeqIdentity_eq (mod_aliseq tar_aliseq : String) (threshold : ℚ) :
    checkSeqIdentity mod_aliseq tar_aliseq threshold =
      (if (seqIdCounts (mod_aliseq.toList.zip tar_aliseq.toList)).2 = 0 then
        .error .zeroDivisionError
      else if ((seqIdCounts (mod_aliseq.toList.zip tar_aliseq.toList)).1 : ℚ) /
          ((seqIdCounts (mod_aliseq.toList.zip tar_aliseq.toList)).2 : ℚ) < threshold then
        .error (.seqIdentityBelowThreshold
          ("The target and model sequence do not correspond:\n* Tar: " ++ tar_aliseq
            ++ "\n* Mod: " ++ mod_aliseq))
      else
        .ok (((seqIdCounts (mod_aliseq.toList.zip tar_aliseq.toList)).1 : ℚ) /
          ((seqIdCounts (mod_aliseq.toList.zip tar_aliseq.toList)).2 : ℚ))) := rfl

/-- C1: over the dedicated model/target pairwise alignment, the identity
check computes the fraction of identical-residue columns among the columns
where both sides are non-gap (`seqIdCounts_eq_countP` names the two
counts), and — provided at least one such column exists, so that the
division is defined — it raises the `DataIncompatibilityError` (a
`ValueError` in the source) exactly when the fraction is strictly below
the caller-set threshold, with a message containing both aligned sequence
strings. -/
theorem seq_identity_rejects_iff_below_threshold
    (mod_aliseq tar_aliseq : String) (threshold : ℚ)
    (h : (seqIdCounts (mod_aliseq.toList.zip tar_aliseq.toList)).2 ≠ 0) :
    ((∃ msg, checkSeqIdentity mod_aliseq tar_aliseq threshold =
        .error (.seqIdentityBelowThreshold msg)) ↔
      ((seqIdCounts (mod_aliseq.toList.zip tar_aliseq.toList)).1 : ℚ) /
        ((seqIdCounts (mod_aliseq.toList.zip tar_aliseq.toList)).2 : ℚ) < threshold) ∧
    (∀ msg, checkSeqIdentity mod_aliseq tar_aliseq threshold =
        .error (.seqIdentityBelowThreshold msg) →
      (∃ a b, msg = a ++ tar_aliseq ++ b) ∧ (∃ a b, msg = a ++ mod_aliseq ++ b)) := by
  rw [checkSeqIdentity_eq, if_neg h]
  constructor
  · constructor
    · rintro ⟨msg, hmsg⟩
      by_contra hlt
      rw [if_neg hlt] at hmsg
      cases hmsg
    · intro hlt
      rw [if_pos hlt]
      exact ⟨_, rfl⟩
  · intro msg hmsg
    split at hmsg
    · cases hmsg
      constructor
      · exact ⟨"The target and model sequence do not correspond:\n* Tar: ",
          "\n* Mod: " ++ mod_aliseq, by simp [String.append_assoc]⟩
      · exact ⟨"The target and model sequence do not correspond:\n* Tar: " ++ tar_aliseq
          ++ "\n* Mod: ", "", by simp [String.append_empty]⟩
    · cases hmsg

/-- Witness for C1 at a concrete input: aligned strings "AA" and "AB"
share one identity over two match columns, and the 0.99 threshold rejects
with a message containing both strings. -/
theorem seq_identity_rejects_iff_below_threshold_witness :
    ((∃ msg, checkSeqIdentity "AA" "AB" (99 / 100) =
        .error (.seqIdentityBelowThreshold msg)) ↔
      ((seqIdCounts ((String.toList "AA").zip (String.toList "AB"))).1 : ℚ) /
        ((seqIdCounts ((String.toList "AA").zip (String.toList "AB"))).2 : ℚ) < 99 / 100) ∧
    (∀ msg, checkSeqIdentity "AA" "AB" (99 / 100) =
        .error (.seqIdentityBelowThreshold msg) →
      (∃ a b, msg = a ++ "AB" ++ b) ∧ (∃ a b, msg = a ++ "AA" ++ b)) :=
  seq_identity_rejects_iff_below_threshold "AA" "AB" (99 / 100) (by decide)

/-- Characterization of the correspondence loop with explicit starting
counters: an entry `(m, t)` is produced exactly by a column `k` where both
sides are non-gap, with `m` and `t` the counts of non-gap model resp.
target characters in the columns before `k`, offset by the starting
counters. -/
theorem buildModTarResDict_mem (pairs : List (Char × Char)) :
    ∀ (mod_c tar_c m t : Nat),
    ((m, t) ∈ buildModTarResDict pairs mod_c tar_c ↔
    ∃ k, ∃ hk : k < pairs.length,
      (pairs.get ⟨k, hk⟩).1 ≠ '-' ∧ (pairs.get ⟨k, hk⟩).2 ≠ '-' ∧
      m = mod_c + (pairs.take k).countP (fun p => p.1 != '-') ∧
      t = tar_c + (pairs.take k).countP (fun p => p.2 != '-')) := by
  induction pairs with
  | nil =>
    intro mod_c tar_c m t
    simp [buildModTarResDict]
  | cons p rest ih =>
    intro mod_c tar_c m t
    obtain ⟨mp, tp⟩ := p
    rw [buildModTarResDict]
    constructor
    · intro hmem
      rcases List.mem_append.1 hmem with hhead | htail
      · by_cases hc : mp ≠ '-' ∧ tp ≠ '-'
        · rw [if_pos hc] at hhead
          simp only [List.mem_singleton, Prod.mk.injEq] at hhead
          exact ⟨0, by simp, by simpa using hc.1, by simpa using hc.2,
            by simp [hhead.1], by simp [hhead.2]⟩
        · rw [if_neg hc] at hhead
          simp at hhead
      · rcases (ih _ _ m t).1 htail with ⟨k, hk, h1, h2, h3, h4⟩
        refine ⟨k + 1, by simpa using Nat.succ_lt_succ hk, by simpa using h1,
          by simpa using h2, ?_, ?_⟩
        · rw [List.take_succ_cons, List.countP_cons]
          by_cases hmp : mp = '-' <;> simp [hmp] at h3 ⊢ <;> omega
        · rw [List.take_succ_cons, List.countP_cons]
          by_cases htp : tp = '-' <;> simp [htp] at h4 ⊢ <;> omega
    · rintro ⟨k, hk, h1, h2, h3, h4⟩
      apply List.mem_append.2
      cases k with
      | zero =>
        left
        simp only [List.get] at h1 h2
        rw [if_pos ⟨h1, h2⟩]
        simp only [List.take_zero, List.countP_nil, Nat.add_zero] at h3 h4
        simp [h3, h4]
      | succ k =>
        right
        apply (ih _ _ m t).2
        refine ⟨k, by simpa using hk, by simpa using h1, by simpa using h2, ?_, ?_⟩
        · rw [List.take_succ_cons, List.countP_cons] at h3
          by_cases hmp : mp = '-' <;> simp [hmp] at h3 ⊢ <;> omega
        · rw [List.take_succ_cons, List.countP_cons] at h4
          by_cases htp : tp = '-' <;> simp [htp] at h4 ⊢ <;> omega

/-- C5: the model/target residue correspondence contains exactly the pairs
`(model position, target position)` arising from an alignment column where
both sides are non-gap; the positions are the 0-based counts of non-gap
model resp. target characters in the columns before that column, so
residues falling in insertion or deletion columns (where the other side is
a gap) contribute no entry. -/
theorem mod_tar_res_dict_spec (mod_aliseq tar_aliseq : String) (m t : Nat) :
    (m, t) ∈ mod_tar_res_dict mod_aliseq tar_aliseq ↔
    ∃ k, ∃ hk : k < (mod_aliseq.toList.zip tar_aliseq.toList).length,
      ((mod_aliseq.toList.zip tar_aliseq.toList).get ⟨k, hk⟩).1 ≠ '-' ∧
      ((mod_aliseq.toList.zip tar_aliseq.toList).get ⟨k, hk⟩).2 ≠ '-' ∧
      m = ((mod_aliseq.toList.zip tar_aliseq.toList).take k).countP (fun p => p.1 != '-') ∧
      t = ((mod_aliseq.toList.zip tar_aliseq.toList).take k).countP (fun p => p.2 != '-') := by
  simpa using buildModTarResDict_mem (mod_aliseq.toList.zip tar_aliseq.toList) 0 0 m t

/-- C3: the category tag assigned to a restrained atom pair is "9" when
both atom types are CA, "10" when the types are N and O in either order,
otherwise "23" when either type is a main-chain atom (CA, N, C, O, OXT),
and otherwise "26"; every pair receives exactly one of the four tags. -/
theorem assign_grp_name_spec (atm_1_type atm_2_type : String) :
    ((atm_1_type = "CA" ∧ atm_2_type = "CA") →
      assign_grp_name atm_1_type atm_2_type = "9") ∧
    (((atm_1_type = "N" ∧ atm_2_type = "O") ∨ (atm_1_type = "O" ∧ atm_2_type = "N")) →
      assign_grp_name atm_1_type atm_2_type = "10") ∧
    (¬(atm_1_type = "CA" ∧ atm_2_type = "CA") →
      ¬((atm_1_type = "N" ∧ atm_2_type = "O") ∨ (atm_1_type = "O" ∧ atm_2_type = "N")) →
      (atm_1_type ∈ main_chain_atoms ∨ atm_2_type ∈ main_chain_atoms) →
      assign_grp_name atm_1_type atm_2_type = "23") ∧
    ((atm_1_type ∉ main_chain_atoms ∧ atm_2_type ∉ main_chain_atoms) →
      assign_grp_name atm_1_type atm_2_type = "26") ∧
    (assign_grp_name atm_1_type atm_2_type = "9" ∨
      assign_grp_name atm_1_type atm_2_type = "10" ∨
      assign_grp_name atm_1_type atm_2_type = "23" ∨
      assign_grp_name atm_1_type atm_2_type = "26") := by
  unfold assign_grp_name main_chain_atoms
  refine ⟨?_, ?_, ?_, ?_, ?_⟩ <;> intros <;> split_ifs <;> simp_all

/-- Witness for C3: one concrete atom-type pair for each of the four
category tags. -/
theorem assign_grp_name_spec_witness :
    assign_grp_name "CA" "CA" = "9" ∧ assign_grp_name "O" "N" = "10" ∧
    assign_grp_name "C" "CB" = "23" ∧ assign_grp_name "CB" "CG" = "26" :=
  ⟨(assign_grp_name_spec "CA" "CA").1 ⟨rfl, rfl⟩,
   (assign_grp_name_spec "O" "N").2.1 (Or.inr ⟨rfl, rfl⟩),
   (assign_grp_name_spec "C" "CB").2.2.1 (by decide) (by decide) (by decide),
   (assign_grp_name_spec "CB" "CG").2.2.2.1 (by decide)⟩

/-- Inversion of the restraint-loop body: a produced row determines the
successful outcome of every lookup on the way, and the row is exactly the
record built from the resolved data. -/
theorem processRestraint_emitted_inv (ctx : TemplateContext) (atm_1 atm_2 : Nat)
    (row : PairResults) (h : processRestraint ctx atm_1 atm_2 = .ok (some row)) :
    ∃ t1 t2 m1 m2 i1 i2 r1 r2 ta1 ta2 na1 na2,
      ctx.atm_type_dict atm_1 = some t1 ∧
      ctx.atm_type_dict atm_2 = some t2 ∧
      (ctx.atm_to_res_dict atm_1).bind (fun ri => ctx.matches_dict.lookup ri) = some m1 ∧
      (ctx.atm_to_res_dict atm_2).bind (fun ri => ctx.matches_dict.lookup ri) = some m2 ∧
      ctx.mod_tar_res_dict.lookup m1.mod_id = some i1 ∧
      ctx.mod_tar_res_dict.lookup m2.mod_id = some i2 ∧
      ctx.tar_residues.get? i1 = some r1 ∧
      ctx.tar_residues.get? i2 = some r2 ∧
      get_modeller_atom m1.tem_res t1 = some ta1 ∧
      get_modeller_atom m2.tem_res t2 = some ta2 ∧
      get_modeller_atom r1 t1 = some na1 ∧
      get_modeller_atom r2 t2 = some na2 ∧
      row =
        { RST_GRP := assign_grp_name t1 t2
          GRP_DN := get_modeller_dist na1 na2
          GRP_DT := get_modeller_dist ta1 ta2
          GRP_DD := get_modeller_dist na1 na2 - get_modeller_dist ta1 ta2
          MOD_ATOM_TYPE_I := t1
          MOD_ATOM_TYPE_J := t2
          MOD_ATOM_INDEX_I := atm_1
          MOD_ATOM_INDEX_J := atm_2
          MOD_RES_PDB_ID_I := m1.mod_res.index
          MOD_RES_PDB_ID_J := m2.mod_res.index
          MOD_RES_NAME_I := m1.mod_res.code
          MOD_RES_NAME_J := m2.mod_res.code
          TAR_RES_PDB_ID_I := r1.num
          TAR_RES_PDB_ID_J := r2.num
          TAR_RES_NAME_I := r1.code
          TAR_RES_NAME_J := r2.code
          TEM_RES_PDB_ID_I := m1.tem_res.num
          TEM_RES_PDB_ID_J := m2.tem_res.num
          TEM_RES_NAME_I := m1.tem_res.code
          TEM_RES_NAME_J := m2.tem_res.code } := by
  unfold processRestraint at h
  split at h
  next t1 t2 h1 h2 =>
    split at h
    next m1 m2 h3 h4 =>
      split at h
      next i1 i2 h5 h6 =>
        split at h
        next r1 r2 h7 h8 =>
          dsimp only at h
          split at h
          next ta1 ta2 h9 h10 =>
            split at h
            next na1 na2 h11 h12 =>
              simp only [Except.ok.injEq, Option.some.injEq] at h
              subst h
              exact ⟨t1, t2, m1, m2, i1, i2, r1, r2, ta1, ta2, na1, na2,
                h1, h2, h3, h4, h5, h6, h7, h8, h9, h10, h11, h12, rfl⟩
            next => simp at h
          next => simp at h
        next => cases h
      next => cases h
    next => cases h
  next => cases h

/-- C4: every emitted analysis row carries the template distance computed
as `get_modeller_dist` (the 3D Euclidean distance, last conjunct) of the
two resolved template atoms, the target distance as the Euclidean distance
of the two resolved target atoms, and a deviation field equal to the
target distance minus the template distance. -/
theorem emitted_row_distances (ctx : TemplateContext) (atm_1 atm_2 : Nat)
    (row : PairResults) (h : processRestraint ctx atm_1 atm_2 = .ok (some row)) :
    ∃ t1 t2 m1 m2 i1 i2 r1 r2 ta1 ta2 na1 na2,
      ctx.atm_type_dict atm_1 = some t1 ∧
      ctx.atm_type_dict atm_2 = some t2 ∧
      (ctx.atm_to_res_dict atm_1).bind (fun ri => ctx.matches_dict.lookup ri) = some m1 ∧
      (ctx.atm_to_res_dict atm_2).bind (fun ri => ctx.matches_dict.lookup ri) = some m2 ∧
      ctx.mod_tar_res_dict.lookup m1.mod_id = some i1 ∧
      ctx.mod_tar_res_dict.lookup m2.mod_id = some i2 ∧
      ctx.tar_residues.get? i1 = some r1 ∧
      ctx.tar_residues.get? i2 = some r2 ∧
      get_modeller_atom m1.tem_res t1 = some ta1 ∧
      get_modeller_atom m2.tem_res t2 = some ta2 ∧
      get_modeller_atom r1 t1 = some na1 ∧
      get_modeller_atom r2 t2 = some na2 ∧
      row.GRP_DT = get_modeller_dist ta1 ta2 ∧
      row.GRP_DN = get_modeller_dist na1 na2 ∧
      row.GRP_DD = row.GRP_DN - row.GRP_DT ∧
      (∀ p q : Atom, get_modeller_dist p q =
        Real.sqrt ((p.x - q.x) ^ 2 + (p.y - q.y) ^ 2 + (p.z - q.z) ^ 2)) := by
  obtain ⟨t1, t2, m1, m2, i1, i2, r1, r2, ta1, ta2, na1, na2,
    h1, h2, h3, h4, h5, h6, h7, h8, h9, h10, h11, h12, hrow⟩ :=
    processRestraint_emitted_inv ctx atm_1 atm_2 row h
  subst hrow
  exact ⟨t1, t2, m1, m2, i1, i2, r1, r2, ta1, ta2, na1, na2,
    h1, h2, h3, h4, h5, h6, h7, h8, h9, h10, h11, h12, rfl, rfl, rfl,
    fun p q => rfl⟩

/-- Construction direction of the restraint-loop body: when every lookup
succeeds, the row built from the resolved data is emitted. -/
theorem processRestraint_emits (ctx : TemplateContext) (atm_1 atm_2 : Nat)
    (t1 t2 : String) (m1 m2 : MatchEntry) (i1 i2 : Nat) (r1 r2 : Residue)
    (ta1 ta2 na1 na2 : Atom)
    (h1 : ctx.atm_type_dict atm_1 = some t1)
    (h2 : ctx.atm_type_dict atm_2 = some t2)
    (h3 : (ctx.atm_to_res_dict atm_1).bind (fun ri => ctx.matches_dict.lookup ri) = some m1)
    (h4 : (ctx.atm_to_res_dict atm_2).bind (fun ri => ctx.matches_dict.lookup ri) = some m2)
    (h5 : ctx.mod_tar_res_dict.lookup m1.mod_id = some i1)
    (h6 : ctx.mod_tar_res_dict.lookup m2.mod_id = some i2)
    (h7 : ctx.tar_residues.get? i1 = some r1)
    (h8 : ctx.tar_residues.get? i2 = some r2)
    (h9 : get_modeller_atom m1.tem_res t1 = some ta1)
    (h10 : get_modeller_atom m2.tem_res t2 = some ta2)
    (h11 : get_modeller_atom r1 t1 = some na1)
    (h12 : get_modeller_atom r2 t2 = some na2) :
    processRestraint ctx atm_1 atm_2 =
      .ok (some
        { RST_GRP := assign_grp_name t1 t2
          GRP_DN := get_modeller_dist na1 na2
          GRP_DT := get_modeller_dist ta1 ta2
          GRP_DD := get_modeller_dist na1 na2 - get_modeller_dist ta1 ta2
          MOD_ATOM_TYPE_I := t1
          MOD_ATOM_TYPE_J := t2
          MOD_ATOM_INDEX_I := atm_1
          MOD_ATOM_INDEX_J := atm_2
          MOD_RES_PDB_ID_I := m1.mod_res.index
          MOD_RES_PDB_ID_J := m2.mod_res.index
          MOD_RES_NAME_I := m1.mod_res.code
          MOD_RES_NAME_J := m2.mod_res.code
          TAR_RES_PDB_ID_I := r1.num
          TAR_RES_PDB_ID_J := r2.num
          TAR_RES_NAME_I := r1.code
          TAR_RES_NAME_J := r2.code
          TEM_RES_PDB_ID_I := m1.tem_res.num
          TEM_RES_PDB_ID_J := m2.tem_res.num
          TEM_RES_NAME_I := m1.tem_res.code
          TEM_RES_NAME_J := m2.tem_res.code }) := by
  simp only [processRestraint, h1, h2, h3, h4, h5, h6, h7, h8, h9, h10, h11, h12]

/-- C2: a restraint's atom pair yields an analysis row exactly when both
model residues resolve (through `atm_to_res_dict` and the model/template
`matches_dict`) to template-aligned residues, both have target residues
through the model/target correspondence, and all four resolved residues
contain an atom of the restraint's atom type; when the residues resolve
but an atom type is missing, the restraint is skipped silently
(`.ok none`, no row and no error), and alignment-gap failures on the
template or target side likewise skip silently. -/
theorem restraint_row_emission_conditions (ctx : TemplateContext) (atm_1 atm_2 : Nat) :
    ((∃ row, processRestraint ctx atm_1 atm_2 = .ok (some row)) ↔
      (∃ t1 t2 m1 m2 i1 i2 r1 r2,
        ctx.atm_type_dict atm_1 = some t1 ∧
        ctx.atm_type_dict atm_2 = some t2 ∧
        (ctx.atm_to_res_dict atm_1).bind (fun ri => ctx.matches_dict.lookup ri) = some m1 ∧
        (ctx.atm_to_res_dict atm_2).bind (fun ri => ctx.matches_dict.lookup ri) = some m2 ∧
        ctx.mod_tar_res_dict.lookup m1.mod_id = some i1 ∧
        ctx.mod_tar_res_dict.lookup m2.mod_id = some i2 ∧
        ctx.tar_residues.get? i1 = some r1 ∧
        ctx.tar_residues.get? i2 = some r2 ∧
        (get_modeller_atom m1.tem_res t1).isSome ∧
        (get_modeller_atom m2.tem_res t2).isSome ∧
        (get_modeller_atom r1 t1).isSome ∧
        (get_modeller_atom r2 t2).isSome)) ∧
    (∀ t1 t2 m1 m2 i1 i2 r1 r2,
      ctx.atm_type_dict atm_1 = some t1 →
      ctx.atm_type_dict atm_2 = some t2 →
      (ctx.atm_to_res_dict atm_1).bind (fun ri => ctx.matches_dict.lookup ri) = some m1 →
      (ctx.atm_to_res_dict atm_2).bind (fun ri => ctx.matches_dict.lookup ri) = some m2 →
      ctx.mod_tar_res_dict.lookup m1.mod_id = some i1 →
      ctx.mod_tar_res_dict.lookup m2.mod_id = some i2 →
      ctx.tar_residues.get? i1 = some r1 →
      ctx.tar_residues.get? i2 = some r2 →
      ¬((get_modeller_atom m1.tem_res t1).isSome ∧
        (get_modeller_atom m2.tem_res t2).isSome ∧
        (get_modeller_atom r1 t1).isSome ∧
        (get_modeller_atom r2 t2).isSome) →
      processRestraint ctx atm_1 atm_2 = .ok none) ∧
    (∀ t1 t2,
      ctx.atm_type_dict atm_1 = some t1 →
      ctx.atm_type_dict atm_2 = some t2 →
      ((ctx.atm_to_res_dict atm_1).bind (fun ri => ctx.matches_dict.lookup ri) = none ∨
       (ctx.atm_to_res_dict atm_2).bind (fun ri => ctx.matches_dict.lookup ri) = none) →
      processRestraint ctx atm_1 atm_2 = .ok none) ∧
    (∀ t1 t2 m1 m2,
      ctx.atm_type_dict atm_1 = some t1 →
      ctx.atm_type_dict atm_2 = some t2 →
      (ctx.atm_to_res_dict atm_1).bind (fun ri => ctx.matches_dict.lookup ri) = some m1 →
      (ctx.atm_to_res_dict atm_2).bind (fun ri => ctx.matches_dict.lookup ri) = some m2 →
      (ctx.mod_tar_res_dict.lookup m1.mod_id = none ∨
       ctx.mod_tar_res_dict.lookup m2.mod_id = none) →
      processRestraint ctx atm_1 atm_2 = .ok none) := by
  refine ⟨⟨?_, ?_⟩, ?_, ?_, ?_⟩
  · rintro ⟨row, hrow⟩
    obtain ⟨t1, t2, m1, m2, i1, i2, r1, r2, ta1, ta2, na1, na2,
      h1, h2, h3, h4, h5, h6, h7, h8, h9, h10, h11, h12, _⟩ :=
      processRestraint_emitted_inv ctx atm_1 atm_2 row hrow
    exact ⟨t1, t2, m1, m2, i1, i2, r1, r2, h1, h2, h3, h4, h5, h6, h7, h8,
      by simp [h9], by simp [h10], by simp [h11], by simp [h12]⟩
  · rintro ⟨t1, t2, m1, m2, i1, i2, r1, r2, h1, h2, h3, h4, h5, h6, h7, h8,
      h9, h10, h11, h12⟩
    obtain ⟨ta1, h9⟩ := Option.isSome_iff_exists.1 h9
    obtain ⟨ta2, h10⟩ := Option.isSome_iff_exists.1 h10
    obtain ⟨na1, h11⟩ := Option.isSome_iff_exists.1 h11
    obtain ⟨na2, h12⟩ := Option.isSome_iff_exists.1 h12
    exact ⟨_, processRestraint_emits ctx atm_1 atm_2 t1 t2 m1 m2 i1 i2 r1 r2
      ta1 ta2 na1 na2 h1 h2 h3 h4 h5 h6 h7 h8 h9 h10 h11 h12⟩
  · intro t1 t2 m1 m2 i1 i2 r1 r2 h1 h2 h3 h4 h5 h6 h7 h8 hnot
    simp only [processRestraint, h1, h2, h3, h4, h5, h6, h7, h8]
    rcases hA : get_modeller_atom m1.tem_res t1 with _ | ta1 <;>
      rcases hB : get_modeller_atom m2.tem_res t2 with _ | ta2 <;>
        rcases hC : get_modeller_atom r1 t1 with _ | na1 <;>
          rcases hD : get_modeller_atom r2 t2 with _ | na2 <;>
            simp_all
  · intro t1 t2 h1 h2 hor
    rcases hor with h3 | h3
    · simp only [processRestraint, h1, h2, h3]
    · rcases hm : (ctx.atm_to_res_dict atm_1).bind (fun ri => ctx.matches_dict.lookup ri)
        with _ | m1 <;> simp only [processRestraint, h1, h2, h3, hm]
  · intro t1 t2 m1 m2 h1 h2 h3 h4 hor
    rcases hor with h5 | h5
    · simp only [processRestraint, h1, h2, h3, h4, h5]
    · rcases hl : ctx.mod_tar_res_dict.lookup m1.mod_id
        with _ | i1 <;> simp only [processRestraint, h1, h2, h3, h4, h5, hl]

/-- Witness for C2: atom 3 of the example context has atom type CB, which
is missing from the resolved residues, so the restraint (3, 2) is skipped
silently with no error. -/
theorem restraint_row_emission_conditions_witness :
    processRestraint wCtx 3 2 = .ok none :=
  (restraint_row_emission_conditions wCtx 3 2).2.1 "CB" "CA"
    ⟨wModRes1, wTemRes1, 0⟩ ⟨wModRes2, wTemRes2, 1⟩ 0 1 wTarRes1 wTarRes2
    rfl rfl rfl rfl rfl rfl rfl rfl (by decide)

/-- Witness for C4: the row emitted for the example restraint (1, 2)
carries the Euclidean template and target distances of the resolved atoms
and their difference as deviation. -/
theorem emitted_row_distances_witness :
    ∃ t1 t2 m1 m2 i1 i2 r1 r2 ta1 ta2 na1 na2,
      wCtx.atm_type_dict 1 = some t1 ∧
      wCtx.atm_type_dict 2 = some t2 ∧
      (wCtx.atm_to_res_dict 1).bind (fun ri => wCtx.matches_dict.lookup ri) = some m1 ∧
      (wCtx.atm_to_res_dict 2).bind (fun ri => wCtx.matches_dict.lookup ri) = some m2 ∧
      wCtx.mod_tar_res_dict.lookup m1.mod_id = some i1 ∧
      wCtx.mod_tar_res_dict.lookup m2.mod_id = some i2 ∧
      wCtx.tar_residues.get? i1 = some r1 ∧
      wCtx.tar_residues.get? i2 = some r2 ∧
      get_modeller_atom m1.tem_res t1 = some ta1 ∧
      get_modeller_atom m2.tem_res t2 = some ta2 ∧
      get_modeller_atom r1 t1 = some na1 ∧
      get_modeller_atom r2 t2 = some na2 ∧
      wRow.GRP_DT = get_modeller_dist ta1 ta2 ∧
      wRow.GRP_DN = get_modeller_dist na1 na2 ∧
      wRow.GRP_DD = wRow.GRP_DN - wRow.GRP_DT ∧
      (∀ p q : Atom, get_modeller_dist p q =
        Real.sqrt ((p.x - q.x) ^ 2 + (p.y - q.y) ^ 2 + (p.z - q.z) ^ 2)) :=
  emitted_row_distances wCtx 1 2 wRow rfl

/-- C10: when the pairwise alignment has no column where both sides are
non-gap, the unguarded division `identities_count/float(matches_count)`
fails with `ZeroDivisionError`, which is not any of the error kinds the
specification declares (not a `DataIncompatibilityError` of either raise
site, not a `NotFoundError`, not a `UsageError`, not the multi-chain
`NotImplementedError`). -/
theorem seq_identity_division_by_zero_unguarded
    (mod_aliseq tar_aliseq : String) (threshold : ℚ)
    (h : (seqIdCounts (mod_aliseq.toList.zip tar_aliseq.toList)).2 = 0) :
    checkSeqIdentity mod_aliseq tar_aliseq threshold = .error .zeroDivisionError ∧
    (∀ msg, AnalysisError.zeroDivisionError ≠ .seqIdentityBelowThreshold msg) ∧
    (∀ msg, AnalysisError.zeroDivisionError ≠ .multiChainNoChain msg) ∧
    (∀ msg, AnalysisError.zeroDivisionError ≠ .templateNotFound msg) ∧
    (∀ msg, AnalysisError.zeroDivisionError ≠ .usageError msg) ∧
    (∀ msg, AnalysisError.zeroDivisionError ≠ .notImplementedMultiChainModel msg) := by
  refine ⟨?_, ?_, ?_, ?_, ?_, ?_⟩
  · rw [checkSeqIdentity_eq, if_pos h]
  all_goals intro msg hmsg; cases hmsg

/-- Witness for C10: an all-gap alignment column pairing (here the empty
strings) yields zero match columns and the division-by-zero error. -/
theorem seq_identity_division_by_zero_unguarded_witness :
    checkSeqIdentity "" "" (1 / 2) = .error .zeroDivisionError ∧
    (∀ msg, AnalysisError.zeroDivisionError ≠ .seqIdentityBelowThreshold msg) ∧
    (∀ msg, AnalysisError.zeroDivisionError ≠ .multiChainNoChain msg) ∧
    (∀ msg, AnalysisError.zeroDivisionError ≠ .templateNotFound msg) ∧
    (∀ msg, AnalysisError.zeroDivisionError ≠ .usageError msg) ∧
    (∀ msg, AnalysisError.zeroDivisionError ≠ .notImplementedMultiChainModel msg) :=
  seq_identity_division_by_zero_unguarded "" "" (1 / 2) (by decide)


/-- The template-search loop with `knowns` empty processes every alignment
sequence: when each has a candidate, it returns their concatenation. -/
theorem get_template_filepaths_loop_all (fs : FileSystem) :
    ∀ (seqs : List SeqMeta) (i : Nat),
      (∀ tem ∈ seqs, template_candidates fs tem ≠ []) →
      get_template_filepaths_loop fs 0 seqs i =
        .ok (seqs.flatMap (template_candidates fs)) := by
  intro seqs
  induction seqs with
  | nil => intro i _; simp [get_template_filepaths_loop]
  | cons tem rest ih =>
    intro i hall
    have hhead : template_candidates fs tem ≠ [] := hall tem (List.mem_cons_self tem rest)
    rw [get_template_filepaths_loop]
    rw [if_neg (by simpa [List.isEmpty_iff] using hhead)]
    rw [if_neg (by omega)]
    rw [ih (i + 1) (fun t ht => hall t (List.mem_cons_of_mem _ ht))]
    simp

/-- The template-search loop with a positive `knowns` length processes
exactly the next `knowns_len - i` sequences: when each has a candidate,
it returns their concatenation. -/
theorem get_template_filepaths_loop_take (fs : FileSystem) (n : Nat) :
    ∀ (seqs : List SeqMeta) (i : Nat), i < n →
      (∀ tem ∈ seqs.take (n - i), template_candidates fs tem ≠ []) →
      get_template_filepaths_loop fs n seqs i =
        .ok ((seqs.take (n - i)).flatMap (template_candidates fs)) := by
  intro seqs
  induction seqs with
  | nil => intro i _ _; simp [get_template_filepaths_loop]
  | cons tem rest ih =>
    intro i hi hall
    have htake : (tem :: rest).take (n - i) = tem :: rest.take (n - i - 1) := by
      conv_lhs => rw [show n - i = (n - i - 1) + 1 by omega]
      rw [List.take_succ_cons]
    rw [htake] at hall
    have hhead : template_candidates fs tem ≠ [] := hall tem (List.mem_cons_self _ _)
    rw [get_template_filepaths_loop]
    rw [if_neg (by simpa [List.isEmpty_iff] using hhead)]
    by_cases hstop : i + 1 = n
    · rw [if_pos hstop]
      rw [htake]
      have h1 : n - i - 1 = 0 := by omega
      rw [h1]
      simp
    · rw [if_neg hstop]
      have harg : ∀ t ∈ rest.take (n - (i + 1)), template_candidates fs t ≠ [] := by
        intro t ht
        refine hall t (List.mem_cons_of_mem _ ?_)
        rwa [show n - (i + 1) = n - i - 1 by omega] at ht
      rw [ih (i + 1) (by omega) harg]
      rw [htake, show n - (i + 1) = n - i - 1 by omega]
      simp

/-- When some processed sequence has no candidate file, the template-search
loop fails with a not-found error. -/
theorem get_template_filepaths_loop_error (fs : FileSystem) (n : Nat) :
    ∀ (seqs : List SeqMeta) (i : Nat), (n = 0 ∨ i < n) →
      (∃ tem ∈ (if n = 0 then seqs else seqs.take (n - i)),
        template_candidates fs tem = []) →
      ∃ msg, get_template_filepaths_loop fs n seqs i =
        .error (.templateNotFound msg) := by
  intro seqs
  induction seqs with
  | nil =>
    intro i _ hex
    exfalso
    rcases hex with ⟨t, ht, _⟩
    split at ht <;> simp at ht
  | cons tem rest ih =>
    intro i hin hex
    by_cases hhead : template_candidates fs tem = []
    · refine ⟨"Structure file not found for template " ++ tem.code ++ ".", ?_⟩
      rw [get_template_filepaths_loop]
      rw [if_pos (by simpa [List.isEmpty_iff] using hhead)]
    · have htake : ∀ hne : n ≠ 0, (tem :: rest).take (n - i) = tem :: rest.take (n - i - 1) := by
        intro hne
        rcases hin with h0 | hlt
        · exact absurd h0 hne
        · conv_lhs => rw [show n - i = (n - i - 1) + 1 by omega]
          rw [List.take_succ_cons]
      by_cases hstop : i + 1 = n
      · exfalso
        have hne : n ≠ 0 := by omega
        rw [if_neg hne, htake hne, show n - i - 1 = 0 by omega] at hex
        rcases hex with ⟨t, ht, hct⟩
        simp only [List.take_zero] at ht
        rcases List.mem_cons.1 ht with rfl | htail
        · exact hhead hct
        · simp at htail
      · have hex' : ∃ t ∈ (if n = 0 then rest else rest.take (n - (i + 1))),
            template_candidates fs t = [] := by
          rcases hex with ⟨t, ht, hct⟩
          by_cases hne : n = 0
          · rw [if_pos hne] at ht ⊢
            subst hne
            rcases List.mem_cons.1 ht with rfl | htail
            · exact absurd hct hhead
            · exact ⟨t, htail, hct⟩
          · rw [if_neg hne] at ht ⊢
            rw [htake hne] at ht
            rcases List.mem_cons.1 ht with rfl | htail
            · exact absurd hct hhead
            · rw [show n - (i + 1) = n - i - 1 by omega]
              exact ⟨t, htail, hct⟩
        obtain ⟨msg, herr⟩ := ih (i + 1) (by omega) hex'
        refine ⟨msg, ?_⟩
        rw [get_template_filepaths_loop]
        rw [if_neg (by simpa [List.isEmpty_iff] using hhead)]
        rw [if_neg hstop, herr]

/-- Counterexample for C6: with two configured directories both containing
a file named after the template code (and a non-existing literal path),
`_get_template_filepaths` appends one path per directory for the single
template — the inner `break` of line 366 leaves only the candidate loop —
so the result is not the single first existing candidate. -/
theorem template_filepath_not_single_first_candidate :
    get_template_filepaths cFs6 cSeqs6 1 = .ok ["d1/t1", "d2/t1"] ∧
    (∀ l, get_template_filepaths cFs6 cSeqs6 1 = .ok l → l ≠ ["d1/t1"]) := by
  refine ⟨rfl, ?_⟩
  intro l hl
  rw [show get_template_filepaths cFs6 cSeqs6 1 = Except.ok ["d1/t1", "d2/t1"] from rfl] at hl
  injection hl with hl
  subst hl
  decide

/-- C6 (amended): for each processed template, the resolution first takes
the literal recorded path when it exists; otherwise it appends, for every
configured directory whose listing contains one of the four candidates
(code, code + ".pdb", basename, basename + ".pdb", tried in this order),
the first such candidate joined to that directory — so a template found
in several directories yields one path per directory; a not-found error
is raised exactly when some processed template has no existing candidate
at all. -/
theorem template_filepath_resolution (fs : FileSystem) (seqs : List SeqMeta) (n : Nat) :
    ((∀ tem ∈ processedSeqs seqs n, template_candidates fs tem ≠ []) →
      get_template_filepaths fs seqs n =
        .ok ((processedSeqs seqs n).flatMap (template_candidates fs))) ∧
    ((∃ tem ∈ processedSeqs seqs n, template_candidates fs tem = []) →
      ∃ msg, get_template_filepaths fs seqs n = .error (.templateNotFound msg)) ∧
    (∀ tem, template_candidates fs tem =
      if fs.isfile tem.atom_file then [tem.atom_file]
      else (fs.atom_files_directory.zip (fs.atom_files_directory.map fs.listdir)).filterMap
        (fun dc => ((template_dir_candidates tem).find? (fun c => dc.2.contains c)).map
          (fun c => path_join dc.1 c))) ∧
    (∀ tem, template_dir_candidates tem =
      [tem.code, tem.code ++ ".pdb", basename tem.atom_file, basename tem.atom_file ++ ".pdb"]) := by
  refine ⟨?_, ?_, fun tem => rfl, fun tem => rfl⟩
  · intro hall
    unfold get_template_filepaths
    by_cases hn : n = 0
    · subst hn
      rw [show processedSeqs seqs 0 = seqs from rfl] at hall ⊢
      exact get_template_filepaths_loop_all fs seqs 0 hall
    · rw [show processedSeqs seqs n = seqs.take n from if_neg hn] at hall ⊢
      have := get_template_filepaths_loop_take fs n seqs 0 (by omega)
      rw [Nat.sub_zero] at this
      exact this hall
  · intro hex
    unfold get_template_filepaths
    by_cases hn : n = 0
    · subst hn
      rw [show processedSeqs seqs 0 = seqs from rfl] at hex
      exact get_template_filepaths_loop_error fs 0 seqs 0 (Or.inl rfl)
        (by rw [if_pos rfl]; exact hex)
    · rw [show processedSeqs seqs n = seqs.take n from if_neg hn] at hex
      refine get_template_filepaths_loop_error fs n seqs 0 (Or.inr (by omega)) ?_
      rw [if_neg hn, Nat.sub_zero]
      exact hex

/-- Witness for the amended C6 theorem at the concrete two-directory
input: every processed template has a candidate, and the returned list is
the per-directory concatenation. -/
theorem template_filepath_resolution_witness :
    get_template_filepaths cFs6 cSeqs6 1 =
      .ok ((processedSeqs cSeqs6 1).flatMap (template_candidates cFs6)) :=
  (template_filepath_resolution cFs6 cSeqs6 1).1 (by decide)

/-- C7: when the supplied target structure has several chains and no chain
was designated via `set_target_structure`, the analysis fails with the
`DataIncompatibilityError` (a `ValueError` in the source) before any
output is produced (no `.ok` result, hence no per-template table); when a
chain was designated and exists, the analysis proceeds on the residues of
that chain only. -/
theorem multichain_target_requires_chain (input : AnalyseInput)
    (hmod : ¬ input.mod_chains_count > 1)
    (hchains : input.tar_obj.chains.length > 1) :
    (input.target_chain = none →
      analyse_target_template_pairs input =
        .error (.multiChainNoChain
          ("The selected target structure has more than chain ("
            ++ toString input.tar_obj.chains.length
            ++ "). In order to extract optimal restraints, provide to the set_target_structure the chain corresponding to the model.")) ∧
      ∀ out, analyse_target_template_pairs input ≠ .ok out) ∧
    (∀ c chain_residues, input.target_chain = some c →
      input.tar_obj.chains.lookup c = some chain_residues →
      analyse_target_template_pairs input = analyse_with_target input chain_residues) := by
  constructor
  · intro hnone
    have herr : resolve_target input.tar_obj input.target_chain =
        .error (.multiChainNoChain
          ("The selected target structure has more than chain ("
            ++ toString input.tar_obj.chains.length
            ++ "). In order to extract optimal restraints, provide to the set_target_structure the chain corresponding to the model.")) := by
      unfold resolve_target
      rw [if_pos hchains, hnone]
    constructor
    · unfold analyse_target_template_pairs
      rw [if_neg hmod, herr]
    · intro out hout
      unfold analyse_target_template_pairs at hout
      rw [if_neg hmod, herr] at hout
      cases hout
  · intro c chain_residues hc hl
    have hok : resolve_target input.tar_obj input.target_chain = .ok chain_residues := by
      unfold resolve_target
      rw [if_pos hchains, hc]
      dsimp only
      rw [hl]
    unfold analyse_target_template_pairs
    rw [if_neg hmod, hok]

/-- Witness for C7: the example input with a two-chain target and no
designation fails with the multi-chain error and yields no output. -/
theorem multichain_target_requires_chain_witness :
    analyse_target_template_pairs cInput7 =
      .error (.multiChainNoChain
        ("The selected target structure has more than chain ("
          ++ toString cInput7.tar_obj.chains.length
          ++ "). In order to extract optimal restraints, provide to the set_target_structure the chain corresponding to the model.")) ∧
    ∀ out, analyse_target_template_pairs cInput7 ≠ .ok out :=
  (multichain_target_requires_chain cInput7 (by decide)
    (by rw [show cInput7.tar_obj.chains.length = 2 from rfl]; omega)).1 rfl

/-- C8: `homcsr` refuses to run without a prior `set_target_structure`
call, raising the usage error (a `ValueError` in the source) and executing
no build stage; with the target set it runs the stages in the fixed order
build initial files, then — only when no custom HDDR options were
configured yet — apply the default options, then analyse the
target/template pairs, then rebuild the restraints file. -/
theorem homcsr_requires_target_and_orders_stages (s : HomcsrState) :
    (s.target_set = false →
      homcsr s = .error (.usageError
        "Please define a target filepath using the set_target_structure method.") ∧
      ∀ trace, homcsr s ≠ .ok trace) ∧
    (s.target_set = true →
      homcsr s = .ok (if s.has_custom_hddr_options then
        [Stage.build_initial_files, Stage.analyse_target_template_pairs,
          Stage.rebuild_restraints_file]
      else
        [Stage.build_initial_files, Stage.set_custom_hddr_options,
          Stage.analyse_target_template_pairs, Stage.rebuild_restraints_file])) := by
  refine ⟨fun h => ⟨?_, ?_⟩, fun h => ?_⟩
  · simp [homcsr, h]
  · intro trace htr
    simp [homcsr, h] at htr
  · cases hc : s.has_custom_hddr_options <;> simp [homcsr, h, hc]

/-- Witness for C8: without a target `homcsr` raises the usage error; with
a target and no configured options it runs all four stages in order. -/
theorem homcsr_requires_target_and_orders_stages_witness :
    homcsr ⟨false, false⟩ = .error (.usageError
      "Please define a target filepath using the set_target_structure method.") ∧
    homcsr ⟨true, false⟩ = .ok (if (HomcsrState.mk true false).has_custom_hddr_options then
        [Stage.build_initial_files, Stage.analyse_target_template_pairs,
          Stage.rebuild_restraints_file]
      else
        [Stage.build_initial_files, Stage.set_custom_hddr_options,
          Stage.analyse_target_template_pairs, Stage.rebuild_restraints_file]) :=
  ⟨((homcsr_requires_target_and_orders_stages ⟨false, false⟩).1 rfl).1,
    (homcsr_requires_target_and_orders_stages ⟨true, false⟩).2 rfl⟩

/-- The rows collected by the restraint loop are exactly the rows of the
restraints whose processing emits one, in restraint order. -/
theorem collect_results_eq_filterMap (ctx : TemplateContext) :
    ∀ (ps : List (Nat × Nat)) (rows : List PairResults),
      collect_results ctx ps = .ok rows →
      rows = ps.filterMap (fun p =>
        match processRestraint ctx p.1 p.2 with
        | .ok (some row) => some row
        | _ => none) := by
  intro ps
  induction ps with
  | nil =>
    intro rows h
    simp only [collect_results, Except.ok.injEq] at h
    subst h
    simp
  | cons p rest ih =>
    intro rows h
    obtain ⟨a1, a2⟩ := p
    rw [collect_results] at h
    split at h
    next e herr => cases h
    next row? hok =>
      split at h
      next e herr2 => cases h
      next rows' hcollect =>
        split at h
        next row =>
          simp only [Except.ok.injEq] at h
          subst h
          rw [List.filterMap_cons]
          dsimp only
          rw [hok]
          rw [← ih rows' hcollect]
        next =>
          simp only [Except.ok.injEq] at h
          subst h
          rw [List.filterMap_cons]
          dsimp only
          rw [hok]
          exact ih rows' hcollect

/-- Indexed characterization of the per-template loop: on success there is
one table per remaining template, table `j` carries the file name
`"<sequence>_tar_tem_<idx+j>.csv"` and the rows collected for template
`j`, the file-name list keeps its length and its entries below `idx`, and
entry `idx + j` records table `j`'s file name. -/
theorem analyse_templates_spec (input : AnalyseInput) (tar_residues : List Residue)
    (mtd : List (Nat × Nat)) :
    ∀ (ks : List TemplateInput) (idx : Nat) (fps : List (Option String))
      (tables : List AnalysisTable) (fps' : List (Option String)),
      analyse_templates input tar_residues mtd idx ks fps = .ok (tables, fps') →
      idx + ks.length ≤ fps.length →
      tables.length = ks.length ∧
      fps'.length = fps.length ∧
      (∀ p, p < idx → fps'.get? p = fps.get? p) ∧
      (∀ j, j < ks.length →
        ∃ k table, ks.get? j = some k ∧ tables.get? j = some table ∧
          table.filename = input.sequence ++ "_tar_tem_" ++ toString (idx + j) ++ ".csv" ∧
          collect_results (template_ctx input tar_residues mtd k) input.hddr_all =
            .ok table.rows ∧
          fps'.get? (idx + j) = some (some table.filename)) := by
  intro ks
  induction ks with
  | nil =>
    intro idx fps tables fps' h hlen
    simp only [analyse_templates, Except.ok.injEq, Prod.mk.injEq] at h
    obtain ⟨h1, h2⟩ := h
    subst h1 h2
    exact ⟨rfl, rfl, fun p _ => rfl, fun j hj => absurd hj (by simp)⟩
  | cons k ks ih =>
    intro idx fps tables fps' h hlen
    rw [analyse_templates] at h
    split at h
    next e herr => cases h
    next results_list hcollect =>
      dsimp only at h
      split at h
      next e herr2 => cases h
      next tables' fps3 hrec =>
        simp only [Except.ok.injEq, Prod.mk.injEq] at h
        obtain ⟨htab, hfps⟩ := h
        subst htab hfps
        have hidx : idx < fps.length := by
          simp only [List.length_cons] at hlen
          omega
        obtain ⟨hlen1, hlen2, hpres, hspec⟩ :=
          ih (idx + 1)
            (fps.set idx (some (input.sequence ++ "_tar_tem_" ++ toString idx ++ ".csv")))
            tables' fps3 hrec
            (by simp only [List.length_set, List.length_cons] at hlen ⊢; omega)
        refine ⟨by simp [hlen1], by rw [hlen2]; simp, ?_, ?_⟩
        · intro p hp
          rw [hpres p (by omega)]
          rw [List.get?_set_of_lt' _ _ hidx]
          rw [if_neg (by omega)]
        · intro j hj
          cases j with
          | zero =>
            refine ⟨k, ⟨input.sequence ++ "_tar_tem_" ++ toString idx ++ ".csv",
              results_list⟩, rfl, rfl, by simp, hcollect, ?_⟩
            rw [Nat.add_zero]
            rw [hpres idx (by omega)]
            rw [List.get?_set_of_lt' _ _ hidx]
            rw [if_pos rfl]
          | succ j =>
            obtain ⟨k', table, hk, ht, hfn, hcol, hfp⟩ :=
              hspec j (by simp only [List.length_cons] at hj; omega)
            refine ⟨k', table, by simpa using hk, by simpa using ht, ?_, hcol, ?_⟩
            · rw [show idx + (j + 1) = idx + 1 + j from by omega]
              exact hfn
            · rw [show idx + (j + 1) = idx + 1 + j from by omega]
              exact hfp

/-- C9: a successful analysis produces exactly one table per template; the
table of template `j` is named `"<sequence>_tar_tem_<j>.csv"`, holds one
row per surviving restraint of that template (the rows of the restraint
loop, in order), and its file name is recorded in
`hddr_params_filepaths` at position `j` for the restraint-rebuild stage. -/
theorem analysis_writes_one_table_per_template (input : AnalyseInput) (out : AnalysisOutput)
    (h : analyse_target_template_pairs input = .ok out)
    (hlen : input.hddr_params_filepaths.length = input.knowns.length) :
    ∃ tar_residues,
      resolve_target input.tar_obj input.target_chain = .ok tar_residues ∧
      (let mod_seq := String.mk (input.mod_residues.map (fun r => r.code))
       let tar_seq := String.mk (tar_residues.map (fun r => r.code))
       let new_aln := input.salign tar_seq mod_seq
       let mtd := mod_tar_res_dict new_aln.2 new_aln.1
       out.tables.length = input.knowns.length ∧
       out.hddr_params_filepaths.length = input.knowns.length ∧
       (∀ j, j < input.knowns.length →
         ∃ k table, input.knowns.get? j = some k ∧ out.tables.get? j = some table ∧
           table.filename = input.sequence ++ "_tar_tem_" ++ toString j ++ ".csv" ∧
           collect_results (template_ctx input tar_residues mtd k) input.hddr_all =
             .ok table.rows ∧
           table.rows = input.hddr_all.filterMap (fun p =>
             match processRestraint (template_ctx input tar_residues mtd k) p.1 p.2 with
             | .ok (some row) => some row
             | _ => none) ∧
           out.hddr_params_filepaths.get? j = some (some table.filename))) := by
  unfold analyse_target_template_pairs at h
  split at h
  · cases h
  · split at h
    next e herr => cases h
    next tar_residues hres =>
      refine ⟨tar_residues, hres, ?_⟩
      unfold analyse_with_target at h
      dsimp only at h ⊢
      split at h
      next e herr2 => cases h
      next q hq =>
        split at h
        next e herr3 => cases h
        next tf htf =>
          split at h
          next e herr4 => cases h
          next tables fps hat =>
            simp only [Except.ok.injEq] at h
            subst h
            obtain ⟨hl1, hl2, _, hspec⟩ :=
              analyse_templates_spec input tar_residues _ input.knowns 0
                input.hddr_params_filepaths tables fps hat (by omega)
            refine ⟨hl1, by rw [hl2, hlen], ?_⟩
            intro j hj
            obtain ⟨k, table, hk, ht, hfn, hcol, hfp⟩ := hspec j hj
            exact ⟨k, table, hk, ht, by simpa using hfn, hcol,
              collect_results_eq_filterMap _ _ _ hcol, by simpa using hfp⟩

/-- Witness for C9: the example run with one template and no restraints
succeeds, writing the single (empty) table `"model_tar_tem_0.csv"` and
recording its name at template index 0. -/
theorem analysis_writes_one_table_per_template_witness :
    ∃ tar_residues,
      resolve_target cInput9.tar_obj cInput9.target_chain = .ok tar_residues ∧
      (let mod_seq := String.mk (cInput9.mod_residues.map (fun r => r.code))
       let tar_seq := String.mk (tar_residues.map (fun r => r.code))
       let new_aln := cInput9.salign tar_seq mod_seq
       let mtd := mod_tar_res_dict new_aln.2 new_aln.1
       (AnalysisOutput.mk [⟨"model_tar_tem_0.csv", []⟩]
         [some "model_tar_tem_0.csv"]).tables.length = cInput9.knowns.length ∧
       (AnalysisOutput.mk [⟨"model_tar_tem_0.csv", []⟩]
         [some "model_tar_tem_0.csv"]).hddr_params_filepaths.length = cInput9.knowns.length ∧
       (∀ j, j < cInput9.knowns.length →
         ∃ k table, cInput9.knowns.get? j = some k ∧
           (AnalysisOutput.mk [⟨"model_tar_tem_0.csv", []⟩]
             [some "model_tar_tem_0.csv"]).tables.get? j = some table ∧
           table.filename = cInput9.sequence ++ "_tar_tem_" ++ toString j ++ ".csv" ∧
           collect_results (template_ctx cInput9 tar_residues mtd k) cInput9.hddr_all =
             .ok table.rows ∧
           table.rows = cInput9.hddr_all.filterMap (fun p =>
             match processRestraint (template_ctx cInput9 tar_residues mtd k) p.1 p.2 with
             | .ok (some row) => some row
             | _ => none) ∧
           (AnalysisOutput.mk [⟨"model_tar_tem_0.csv", []⟩]
             [some "model_tar_tem_0.csv"]).hddr_params_filepaths.get? j =
               some (some table.filename))) := by
  have h : analyse_target_template_pairs cInput9 =
      .ok ⟨[⟨"model_tar_tem_0.csv", []⟩], [some "model_tar_tem_0.csv"]⟩ := by
    have hc : checkSeqIdentity "A" "A" (99 / 100) = .ok 1 := by
      have hcount : seqIdCounts ((String.toList "A").zip (String.toList "A")) = (1, 1) := rfl
      unfold checkSeqIdentity
      rw [hcount]
      norm_num
    unfold analyse_target_template_pairs analyse_with_target
    norm_num [cInput9, resolve_target]
    rw [show ({ data := [cRes9.code] } : String) = "A" from rfl]
    rw [hc]
    rfl
  exact analysis_writes_one_table_per_template cInput9
    ⟨[⟨"model_tar_tem_0.csv", []⟩], [some "model_tar_tem_0.csv"]⟩ h rfl
